import Mathlib

/-!
Shallow embedding of the easebox-backend identity core.

Sources embedded:
* `src/modules/auth/services/oauth-auth.service.ts` (OAuthAuthService)
* `src/modules/auth/services/id-verification.service.ts` (AuthService, IdVerificationService)
* `src/repositories/*.ts` and the unnamed `UserRepository` file (drizzle-backed stores)
* `src/infrastructure/database/schema/users.ts` plus the drizzle migrations (column
  defaults we rely on: `is_active` defaults to true, `email_verified` to false,
  `individual_profiles.id_number` is nullable)
* the unnamed `RequestService` file (resilient HTTP client)
* `src/modules/auth/providers/prembly.provider.ts` (live verification provider)

Modelling conventions:
* uuid primary keys become `Nat`s allocated from a per-database counter `nextId`;
  `DbWF` records that every stored id / foreign key is below the counter, which is
  what uuid freshness gives the real system.
* drizzle `insert` appends to the table list; `select ... where` is `List.find?` /
  `List.filter` with the same predicate the query uses.
* `async` methods that throw become functions returning `Except e α × Db`: the
  returned `Db` is the state at the moment the result (value or thrown error) is
  produced, so partial mutations before a throw are preserved (no transactions
  exist in the source).
* timestamps (`createdAt`/`updatedAt`), logging, and OTP email dispatch are not
  modelled: no claim observes them, and the email dispatch in registration is
  wrapped in a try/catch whose failure is only logged.
-/

/-- `user_type` pg enum from `schema/users.ts`. -/
inductive UserType
  | individual
  | logistics_company
  | rider
deriving DecidableEq, Repr

/-- `IDType` from `#shared/types` as consumed by `VALID_ID_TYPES` and the
`switch` in `IdVerificationService.verifyId`. -/
inductive IDType
  | rc_number
  | nigerian_national_id
deriving DecidableEq, Repr

/-- Row of the `users` table (timestamps omitted). `password` is nullable for
OAuth-only users. -/
structure User where
  id : Nat
  email : String
  password : Option String
  userType : UserType
  emailVerified : Bool
  phoneVerified : Bool
  isActive : Bool
  termsAccepted : Bool
deriving DecidableEq, Repr

/-- Row of `individual_profiles` (timestamps omitted). `idNumber` is the nullable
`id_number` column added by migration 0004. -/
structure IndividualProfile where
  id : Nat
  firstName : String
  lastName : String
  phone : Option String
  idNumber : Option String
  userId : Nat
deriving DecidableEq, Repr

/-- Row of `company_profiles` (timestamps omitted). -/
structure CompanyProfile where
  id : Nat
  address : String
  companyEmail : String
  companyName : String
  companyPhone : Option String
  logoUrl : Option String
  rcNumber : String
  userId : Nat
deriving DecidableEq, Repr

/-- Row of `oauth_identities` (timestamps omitted). Providers are plain strings,
as in the repository layer. -/
structure OAuthIdentity where
  id : Nat
  provider : String
  providerAccountId : String
  providerEmail : Option String
  userId : Nat
deriving DecidableEq, Repr

/-- The relational store as the services see it, plus the id allocator. -/
structure Db where
  users : List User
  individualProfiles : List IndividualProfile
  companyProfiles : List CompanyProfile
  oauthIdentities : List OAuthIdentity
  nextId : Nat
deriving DecidableEq, Repr

/-- Well-formedness: every stored primary key and foreign key is below the
allocator, so freshly created rows never collide with existing ones. Real uuid
generation provides exactly this freshness. -/
def DbWF (db : Db) : Prop :=
  (∀ u ∈ db.users, u.id < db.nextId) ∧
  (∀ p ∈ db.individualProfiles, p.id < db.nextId ∧ p.userId < db.nextId) ∧
  (∀ p ∈ db.companyProfiles, p.id < db.nextId ∧ p.userId < db.nextId) ∧
  (∀ i ∈ db.oauthIdentities, i.id < db.nextId ∧ i.userId < db.nextId)

instance (db : Db) : Decidable (DbWF db) := by
  unfold DbWF; infer_instance

/-- ECMAScript `String.prototype.toLowerCase()` over the ASCII range, defined
structurally on the character list so that concrete instances evaluate. -/
def jsToLowerCase (s : String) : String :=
  ⟨s.data.map Char.toLower⟩

/-- ECMAScript `String.prototype.trim()`: strip whitespace from both ends,
defined structurally on the character list so that concrete instances
evaluate. -/
def jsTrim (s : String) : String :=
  ⟨((s.data.dropWhile Char.isWhitespace).reverse.dropWhile Char.isWhitespace).reverse⟩

/-! ### Repository layer -/

/-- `UserRepository.findByEmail`: `where(eq(users.email, email.toLowerCase()))` —
the stored email is compared against the lowercased (but not trimmed) input. -/
def user_findByEmail (db : Db) (email : String) : Option User :=
  db.users.find? (fun u => u.email == jsToLowerCase email)

/-- `UserRepository.existsByEmail`. -/
def user_existsByEmail (db : Db) (email : String) : Bool :=
  (user_findByEmail db email).isSome

/-- `UserRepository.findById`. -/
def user_findById (db : Db) (id : Nat) : Option User :=
  db.users.find? (fun u => u.id == id)

/-- `UserRepository.create`: insert with schema defaults for the columns the
services never pass (`phoneVerified := false`, `isActive := true`). The fresh id
comes from the allocator. -/
def user_create (db : Db) (email : String) (emailVerified : Bool)
    (password : Option String) (termsAccepted : Bool) (userType : UserType) :
    User × Db :=
  let u : User :=
    { id := db.nextId, email := email, password := password, userType := userType
      emailVerified := emailVerified, phoneVerified := false, isActive := true
      termsAccepted := termsAccepted }
  (u, { db with users := db.users ++ [u], nextId := db.nextId + 1 })

/-- `UserRepository.update` specialised to the one partial update the OAuth flow
performs: setting `emailVerified`. -/
def user_update_emailVerified (db : Db) (id : Nat) (v : Bool) : Db :=
  { db with users := db.users.map (fun u => if u.id = id then { u with emailVerified := v } else u) }

/-- `UserRepository.findByNigerianNationalId` (invoked by the orchestrator under
the name `findByVerificationIdNumber`): join of `users` with
`individual_profiles` on `id_number`. -/
def user_findByNigerianNationalId (db : Db) (nin : String) : Option User :=
  match db.individualProfiles.find? (fun p => p.idNumber == some nin) with
  | none => none
  | some p => db.users.find? (fun u => u.id == p.userId)

/-- `IndividualProfileRepository.findByUserId` (the repository file is not in the
snapshot; its semantics mirror the sibling `CompanyProfileRepository.findByUserId`,
a `select ... where eq(userId)`). -/
def individualProfile_findByUserId (db : Db) (userId : Nat) : Option IndividualProfile :=
  db.individualProfiles.find? (fun p => p.userId == userId)

/-- `IndividualProfileRepository.create` (mirrors the sibling repositories'
`insert ... returning`; the service never passes `idNumber`, whose column is
nullable). -/
def individualProfile_create (db : Db) (firstName lastName : String)
    (phone : Option String) (userId : Nat) : IndividualProfile × Db :=
  let p : IndividualProfile :=
    { id := db.nextId, firstName := firstName, lastName := lastName
      phone := phone, idNumber := none, userId := userId }
  (p, { db with individualProfiles := db.individualProfiles ++ [p], nextId := db.nextId + 1 })

/-- `CompanyProfileRepository.findByUserId`. -/
def companyProfile_findByUserId (db : Db) (userId : Nat) : Option CompanyProfile :=
  db.companyProfiles.find? (fun p => p.userId == userId)

/-- `CompanyProfileRepository.findByRcNumber`. -/
def companyProfile_findByRcNumber (db : Db) (rcNumber : String) : Option CompanyProfile :=
  db.companyProfiles.find? (fun p => p.rcNumber == rcNumber)

/-- `CompanyProfileRepository.create`. -/
def companyProfile_create (db : Db) (address companyEmail companyName : String)
    (companyPhone logoUrl : Option String) (rcNumber : String) (userId : Nat) :
    CompanyProfile × Db :=
  let p : CompanyProfile :=
    { id := db.nextId, address := address, companyEmail := companyEmail
      companyName := companyName, companyPhone := companyPhone
      logoUrl := logoUrl, rcNumber := rcNumber, userId := userId }
  (p, { db with companyProfiles := db.companyProfiles ++ [p], nextId := db.nextId + 1 })

/-- `CompanyProfileRepository.updateByUserId` specialised to the one partial
update the orchestrator performs: persisting `rcNumber`. -/
def companyProfile_update_rcNumber (db : Db) (userId : Nat) (rcNumber : String) : Db :=
  { db with companyProfiles :=
      db.companyProfiles.map (fun p => if p.userId = userId then { p with rcNumber := rcNumber } else p) }

/-- `OAuthIdentityRepository.create`. -/
def oauthIdentity_create (db : Db) (provider providerAccountId : String)
    (providerEmail : Option String) (userId : Nat) : OAuthIdentity × Db :=
  let i : OAuthIdentity :=
    { id := db.nextId, provider := provider, providerAccountId := providerAccountId
      providerEmail := providerEmail, userId := userId }
  (i, { db with oauthIdentities := db.oauthIdentities ++ [i], nextId := db.nextId + 1 })

/-- `OAuthIdentityRepository.deleteByUserIdAndProvider`. -/
def oauthIdentity_deleteByUserIdAndProvider (db : Db) (userId : Nat) (provider : String) : Db :=
  { db with oauthIdentities :=
      db.oauthIdentities.filter (fun i => !(i.userId == userId && i.provider == provider)) }

/-- `OAuthIdentityRepository.findByProviderAndAccountId`. -/
def oauthIdentity_findByProviderAndAccountId (db : Db) (provider providerAccountId : String) :
    Option OAuthIdentity :=
  db.oauthIdentities.find? (fun i => i.provider == provider && i.providerAccountId == providerAccountId)

/-- `OAuthIdentityRepository.findByUserId`. -/
def oauthIdentity_findByUserId (db : Db) (userId : Nat) : List OAuthIdentity :=
  db.oauthIdentities.filter (fun i => i.userId == userId)

/-- `OAuthIdentityRepository.findByUserIdAndProvider`. -/
def oauthIdentity_findByUserIdAndProvider (db : Db) (userId : Nat) (provider : String) :
    Option OAuthIdentity :=
  db.oauthIdentities.find? (fun i => i.userId == userId && i.provider == provider)

/-- `OAuthIdentityRepository.findUserByProviderIdentity`: inner join of
`oauth_identities` with `users`. -/
def findUserByProviderIdentity (db : Db) (provider providerAccountId : String) : Option User :=
  match oauthIdentity_findByProviderAndAccountId db provider providerAccountId with
  | none => none
  | some i => db.users.find? (fun u => u.id == i.userId)

/-! ### Collaborators (token issuance, password hashing) -/

/-- Token payload `{email, userId, userType}` from `#shared/utils/jwt`. -/
structure TokenPayload where
  email : String
  userId : Nat
  userType : UserType
deriving DecidableEq, Repr

/-- Access/refresh token pair. -/
structure Tokens where
  payload : TokenPayload
deriving DecidableEq, Repr

/-- Modelled from the spec: the token-issuance collaborator (`generateTokens` in
`#shared/utils/jwt`, not in the snapshot) signs exactly the payload
`{email, userId, userType}`; the signing algorithm is out of scope, so tokens are
modelled as the signed payload itself. -/
def generateTokens (p : TokenPayload) : Tokens := ⟨p⟩

/-- Modelled from the spec: the password-hashing collaborator
(`hashPassword`/`verifyPassword` in `#shared/utils/password`, not in the
snapshot) provides `hash : plaintext → hash` with `verify(p, hash p) = true`;
the hash itself is opaque to the core. -/
def hashPassword (plaintext : String) : String :=
  "hashed$" ++ plaintext

/-- Modelled from the spec: see `hashPassword`. -/
def verifyPassword (plaintext hash : String) : Bool :=
  hash == hashPassword plaintext

/-! ### OAuthAuthService (`oauth-auth.service.ts`) -/

/-- `OAuthAuthError` with its stable machine-readable `code`. -/
structure OAuthAuthError where
  message : String
  code : String
deriving DecidableEq, Repr

/-- `OAuthAuthInput` (the OAuth assertion delivered to the callback). -/
structure OAuthAuthInput where
  email : String
  emailVerified : Bool
  firstName : String
  lastName : String
  provider : String
  providerAccountId : String
deriving DecidableEq, Repr

/-- `AuthResponse` as returned by both auth services; `profile` is whichever
profile row the flow loaded or created. -/
inductive ProfileData
  | individual (p : IndividualProfile)
  | company (p : CompanyProfile)
deriving DecidableEq, Repr

structure AuthResponse where
  profile : ProfileData
  tokens : Tokens
  user_id : Nat
deriving DecidableEq, Repr

/-- `OAuthAuthService.linkOAuthIdentity`: conflict check on
`(provider, providerAccountId)` against a different user, then idempotent
creation keyed on `(userId, provider)`. -/
def linkOAuthIdentity (db : Db) (userId : Nat)
    (provider providerAccountId providerEmail : String) :
    Except OAuthAuthError Unit × Db :=
  let conflict :=
    match oauthIdentity_findByProviderAndAccountId db provider providerAccountId with
    | some existingIdentity => existingIdentity.userId != userId
    | none => false
  if conflict then
    (Except.error ⟨"This OAuth account is already linked to another user", "OAUTH_ACCOUNT_LINKED"⟩, db)
  else
    match oauthIdentity_findByUserIdAndProvider db userId provider with
    | some _ => (Except.ok (), db)
    | none =>
        (Except.ok (),
         (oauthIdentity_create db provider providerAccountId
            (some (jsTrim (jsToLowerCase providerEmail))) userId).2)

/-- `OAuthAuthService.createUserWithOAuth`: create a password-less individual
user, its profile, then link the identity. The three writes are separate
repository calls; a thrown link conflict leaves the first two in place. -/
def createUserWithOAuth (db : Db) (input : OAuthAuthInput) :
    Except OAuthAuthError AuthResponse × Db :=
  let uc := user_create db (jsTrim (jsToLowerCase input.email)) input.emailVerified none true .individual
  let user := uc.1
  let pc := individualProfile_create uc.2 (jsTrim input.firstName) (jsTrim input.lastName) none user.id
  let profile := pc.1
  match linkOAuthIdentity pc.2 user.id input.provider input.providerAccountId input.email with
  | (Except.error e, db3) => (Except.error e, db3)
  | (Except.ok _, db3) =>
      (Except.ok
        { profile := .individual profile
          tokens := generateTokens ⟨user.email, user.id, user.userType⟩
          user_id := user.id }, db3)

/-- `OAuthAuthService.authenticateWithOAuth`: resolution order is provider
identity, then email, then creation. -/
def authenticateWithOAuth (db : Db) (input : OAuthAuthInput) :
    Except OAuthAuthError AuthResponse × Db :=
  match findUserByProviderIdentity db input.provider input.providerAccountId with
  | some existingUserByProvider =>
      (match individualProfile_findByUserId db existingUserByProvider.id with
       | none => (Except.error ⟨"User profile not found", "PROFILE_NOT_FOUND"⟩, db)
       | some profile =>
           (Except.ok
             { profile := .individual profile
               tokens := generateTokens
                 ⟨existingUserByProvider.email, existingUserByProvider.id,
                  existingUserByProvider.userType⟩
               user_id := existingUserByProvider.id }, db))
  | none =>
      match user_findByEmail db input.email with
      | some existingUserByEmail =>
          (match linkOAuthIdentity db existingUserByEmail.id input.provider
              input.providerAccountId input.email with
           | (Except.error e, db1) => (Except.error e, db1)
           | (Except.ok _, db1) =>
               let db2 :=
                 if input.emailVerified && !existingUserByEmail.emailVerified then
                   user_update_emailVerified db1 existingUserByEmail.id true
                 else db1
               match individualProfile_findByUserId db2 existingUserByEmail.id with
               | none => (Except.error ⟨"User profile not found", "PROFILE_NOT_FOUND"⟩, db2)
               | some profile =>
                   (Except.ok
                     { profile := .individual profile
                       tokens := generateTokens
                         ⟨existingUserByEmail.email, existingUserByEmail.id,
                          existingUserByEmail.userType⟩
                       user_id := existingUserByEmail.id }, db2))
      | none => createUserWithOAuth db input

/-- `OAuthAuthService.getLinkedProviders`. -/
def getLinkedProviders (db : Db) (userId : Nat) : List String :=
  (oauthIdentity_findByUserId db userId).map (fun i => i.provider)

/-- `OAuthAuthService.unlinkProvider`: guard against orphaning a password-less
account (identities counted before deletion, `password !== null` is a strict
null check), then delete the `(userId, provider)` row. -/
def unlinkProvider (db : Db) (userId : Nat) (provider : String) :
    Except OAuthAuthError Unit × Db :=
  match user_findById db userId with
  | none => (Except.error ⟨"User not found", "USER_NOT_FOUND"⟩, db)
  | some user =>
      let identities := oauthIdentity_findByUserId db userId
      let hasPassword := user.password.isSome
      if !hasPassword && identities.length ≤ 1 then
        (Except.error
          ⟨"Cannot unlink the only authentication method. Please set a password first.",
           "CANNOT_UNLINK_ONLY_AUTH"⟩, db)
      else
        (Except.ok (), oauthIdentity_deleteByUserIdAndProvider db userId provider)

/-! ### AuthService (credential registration and login) -/

/-- `AuthError` with its stable machine-readable `code`. -/
structure AuthError where
  message : String
  code : String
deriving DecidableEq, Repr

structure RegisterIndividualInput where
  email : String
  password : String
  firstName : String
  lastName : String
  phone : Option String
  termsAccepted : Bool
deriving DecidableEq, Repr

structure RegisterCompanyInput where
  companyEmail : String
  password : String
  companyName : String
  companyPhone : Option String
  address : String
  logoUrl : Option String
  rcNumber : String
  termsAccepted : Bool
deriving DecidableEq, Repr

structure LoginInput where
  email : String
  password : String
deriving DecidableEq, Repr

/-- `AuthService.registerIndividual`: email pre-check, terms check, hash, create
user then profile (two separate writes), best-effort verification email (logged
only), tokens. -/
def registerIndividual (db : Db) (input : RegisterIndividualInput) :
    Except AuthError AuthResponse × Db :=
  if user_existsByEmail db input.email then
    (Except.error ⟨"A user with this email already exists", "EMAIL_EXISTS"⟩, db)
  else if !input.termsAccepted then
    (Except.error ⟨"You must accept the terms and conditions", "TERMS_NOT_ACCEPTED"⟩, db)
  else
    let hashedPassword := hashPassword input.password
    let uc := user_create db (jsTrim (jsToLowerCase input.email)) false (some hashedPassword) true .individual
    let user := uc.1
    let pc := individualProfile_create uc.2 (jsTrim input.firstName) (jsTrim input.lastName)
      (input.phone.map jsTrim) user.id
    (Except.ok
      { profile := .individual pc.1
        tokens := generateTokens ⟨user.email, user.id, user.userType⟩
        user_id := user.id }, pc.2)

/-- `AuthService.registerCompany`: email pre-check, RC-number pre-check (any
existing claimant rejects), terms check, create user then company profile. -/
def registerCompany (db : Db) (input : RegisterCompanyInput) :
    Except AuthError AuthResponse × Db :=
  if user_existsByEmail db input.companyEmail then
    (Except.error ⟨"A user with this email already exists", "EMAIL_EXISTS"⟩, db)
  else if (companyProfile_findByRcNumber db input.rcNumber).isSome then
    (Except.error ⟨"A company with this RC number already exists", "RC_NUMBER_EXISTS"⟩, db)
  else if !input.termsAccepted then
    (Except.error ⟨"You must accept the terms and conditions", "TERMS_NOT_ACCEPTED"⟩, db)
  else
    let hashedPassword := hashPassword input.password
    let uc := user_create db (jsTrim (jsToLowerCase input.companyEmail)) false (some hashedPassword) true
      .logistics_company
    let user := uc.1
    let pc := companyProfile_create uc.2 (jsTrim input.address) (jsTrim (jsToLowerCase input.companyEmail))
      (jsTrim input.companyName) (input.companyPhone.map jsTrim) input.logoUrl
      (jsTrim input.rcNumber) user.id
    (Except.ok
      { profile := .company pc.1
        tokens := generateTokens ⟨user.email, user.id, user.userType⟩
        user_id := user.id }, pc.2)

/-- Javascript truthiness of `user.password` in `login`'s `if (!user.password)`:
`null` and the empty string are both falsy. -/
def jsTruthyPassword : Option String → Bool
  | none => false
  | some s => s ≠ ""

/-- `AuthService.login`: normalize email, credential checks in source order, then
the profile lookup — which targets the individual-profile store only. -/
def login (db : Db) (input : LoginInput) : Except AuthError AuthResponse × Db :=
  let email := jsTrim (jsToLowerCase input.email)
  match user_findByEmail db email with
  | none => (Except.error ⟨"Invalid email or password", "INVALID_CREDENTIALS"⟩, db)
  | some user =>
      if !jsTruthyPassword user.password then
        (Except.error
          ⟨"This account uses social login. Please sign in with your social provider.",
           "NO_PASSWORD"⟩, db)
      else if !(verifyPassword input.password (user.password.getD "")) then
        (Except.error ⟨"Invalid email or password", "INVALID_CREDENTIALS"⟩, db)
      else if !user.isActive then
        (Except.error
          ⟨"Your account has been deactivated. Please contact support.", "ACCOUNT_DEACTIVATED"⟩, db)
      else
        match individualProfile_findByUserId db user.id with
        | none => (Except.error ⟨"User profile not found", "PROFILE_NOT_FOUND"⟩, db)
        | some profile =>
            (Except.ok
              { profile := .individual profile
                tokens := generateTokens ⟨user.email, user.id, user.userType⟩
                user_id := user.id }, db)

/-! ### RequestService (resilient HTTP client)

The network is modelled as a function `attempts : Nat → AttemptResult T` giving
the outcome of the n-th attempt (1-indexed). `sleep` is a pure delay with no
effect on any modelled state, so `request` reports the result together with the
number of attempts performed. Delay *values* are specified by
`calculateBackoffDelay`, which takes the `Math.random()` sample as an explicit
rational in `[0, 1)`. -/

/-- Partial `RetryConfig` as passed per call. -/
structure RetryConfig where
  enabled : Option Bool := none
  maxRetries : Option Nat := none
  retryDelay : Option ℚ := none
  retryableStatusCodes : Option (List Nat) := none
  retryableErrors : Option (List String) := none
deriving DecidableEq, Repr

/-- `Required<RetryConfig>` after merging with defaults. -/
structure RetryConfigFull where
  enabled : Bool
  maxRetries : Nat
  retryDelay : ℚ
  retryableStatusCodes : List Nat
  retryableErrors : List String
deriving DecidableEq, Repr

/-- `DEFAULT_RETRY_CONFIG`. -/
def DEFAULT_RETRY_CONFIG : RetryConfigFull :=
  { enabled := false
    maxRetries := 3
    retryDelay := 1000
    retryableStatusCodes := [408, 429, 500, 502, 503, 504]
    retryableErrors := ["ECONNRESET", "ETIMEDOUT", "ENOTFOUND", "ECONNREFUSED"] }

/-- Normalized `RequestError`. The response body (`data`) is modelled by its
optional `message` field, the only part the client reads. -/
structure RequestError where
  message : String
  status : Option Nat := none
  statusText : Option String := none
  dataMessage : Option String := none
  code : Option String := none
  isRetryable : Bool
deriving DecidableEq, Repr

/-- What one axios attempt can produce: a value, an axios error (with optional
response status / body message and transport code), a plain thrown `Error`, or a
thrown non-`Error` value. -/
inductive AttemptResult (T : Type)
  | success (value : T)
  | axiosFailure (status : Option Nat) (statusText : Option String)
      (dataMessage : Option String) (errMessage : String) (code : Option String)
  | plainFailure (message : String)
  | otherFailure
deriving DecidableEq, Repr

/-- `RequestService.isRetryableError`: reads `DEFAULT_RETRY_CONFIG`, never the
per-call configuration. The `status`/`responseStatus` arguments are both
`axiosError.response?.status` at the call site. Truthiness guards (`status &&`,
`code &&`) are kept. -/
def isRetryableError (status : Option Nat) (code : Option String) (responseStatus : Option Nat) :
    Bool :=
  let retryConfig := DEFAULT_RETRY_CONFIG
  (match status with
   | some s => s != 0 && retryConfig.retryableStatusCodes.contains s
   | none => false) ||
  (match responseStatus with
   | some s => s != 0 && retryConfig.retryableStatusCodes.contains s
   | none => false) ||
  (match code with
   | some c => c != "" && retryConfig.retryableErrors.contains c
   | none => false)

/-- Javascript `a || b` on strings: keep `a` when truthy (non-empty). -/
def jsStrOr (a b : String) : String :=
  if a != "" then a else b

/-- Javascript `a?.message || b` where `a` may be absent. -/
def jsOptStrOr (a : Option String) (b : String) : String :=
  match a with
  | some s => jsStrOr s b
  | none => b

/-- `RequestService.handleError` on a failed attempt. -/
def handleError {T : Type} (f : AttemptResult T) : RequestError :=
  match f with
  | .success _ =>
      -- handleError is only reached from a catch block; a successful attempt
      -- never gets here. Kept total with the non-axios fallback shape.
      { message := "Unknown error occurred", isRetryable := false }
  | .axiosFailure status statusText dataMessage errMessage code =>
      { message := jsOptStrOr dataMessage (jsStrOr errMessage "Request failed")
        status := status
        statusText := statusText
        dataMessage := dataMessage
        code := code
        isRetryable := isRetryableError status code status }
  | .plainFailure message => { message := message, isRetryable := false }
  | .otherFailure => { message := "Unknown error occurred", isRetryable := false }

/-- `RequestService.executeRequest`: one attempt, failures normalized and thrown. -/
def executeRequest {T : Type} (outcome : AttemptResult T) : Except RequestError T :=
  match outcome with
  | .success v => Except.ok v
  | f => Except.error (handleError f)

/-- What `executeWithRetry`'s catch sees is the value thrown by
`executeRequest` — the already-normalized plain `RequestError` object, not the
original axios error. Feeding it to `handleError` again takes the
unknown-thrown-value branch, because a plain object literal satisfies neither
`axios.isAxiosError` nor `instanceof Error`. -/
def handleThrownRequestError (_thrown : RequestError) : RequestError :=
  handleError (AttemptResult.otherFailure (T := Unit))

/-- `RequestService.executeWithRetry`, returning the result together with the
total number of attempts performed. The catch re-normalizes the caught value
via `handleError` (`handleThrownRequestError`), and both the retry check and
the re-thrown error use that re-normalized object — so on this path
`isRetryable` is always false, the recursion never actually fires, and the
degenerate error surfaces instead of the informative one. `fuel` is the
embedding's termination measure; `request` supplies `fuel = maxRetries`, which
makes the fuel-exhausted branch unreachable because recursion only happens
while `attempt ≤ maxRetries`. -/
def executeWithRetry {T : Type} (attempts : Nat → AttemptResult T)
    (retryConfig : RetryConfigFull) (attempt : Nat) (fuel : Nat) :
    Except RequestError T × Nat :=
  match executeRequest (attempts attempt) with
  | Except.ok v => (Except.ok v, attempt)
  | Except.error thrown =>
      let requestError := handleThrownRequestError thrown
      if attempt ≤ retryConfig.maxRetries ∧ requestError.isRetryable = true then
        match fuel with
        | 0 => (Except.error requestError, attempt)
        | f + 1 => executeWithRetry attempts retryConfig (attempt + 1) f
      else
        (Except.error requestError, attempt)

/-- `RequestService.calculateBackoffDelay` with the `Math.random()` sample `r`
passed explicitly. -/
def calculateBackoffDelay (attempt : Nat) (baseDelay : ℚ) (r : ℚ) : ℚ :=
  let exponentialDelay := baseDelay * 2 ^ (attempt - 1)
  let jitter := r * (3 / 10) * exponentialDelay
  min (exponentialDelay + jitter) 30000

/-- `RequestService.mergeRetryConfig`. -/
def mergeRetryConfig (retry : Option RetryConfig) : RetryConfigFull :=
  match retry with
  | none => DEFAULT_RETRY_CONFIG
  | some r =>
      { enabled := r.enabled.getD DEFAULT_RETRY_CONFIG.enabled
        maxRetries := r.maxRetries.getD DEFAULT_RETRY_CONFIG.maxRetries
        retryDelay := r.retryDelay.getD DEFAULT_RETRY_CONFIG.retryDelay
        retryableStatusCodes :=
          r.retryableStatusCodes.getD DEFAULT_RETRY_CONFIG.retryableStatusCodes
        retryableErrors := r.retryableErrors.getD DEFAULT_RETRY_CONFIG.retryableErrors }

/-- `RequestService.request` (header merging, which touches no modelled state, is
omitted): one attempt when retry is disabled, otherwise `executeWithRetry` from
attempt 1. -/
def request {T : Type} (attempts : Nat → AttemptResult T) (retry : Option RetryConfig) :
    Except RequestError T × Nat :=
  let retryConfig := mergeRetryConfig retry
  if !retryConfig.enabled then
    (executeRequest (attempts 1), 1)
  else
    executeWithRetry attempts retryConfig 1 retryConfig.maxRetries

/-! ### PremblyVerificationProvider (`prembly.provider.ts`)

The outbound POST body and URL strings carry no modelled state; a provider call
is represented by the `attempts` function fed to `request` with the provider's
per-call retry configuration. -/

/-- The normalized fields of a Prembly response body that the core reads. -/
structure PremblyData where
  firstname : Option String := none
  middlename : Option String := none
  surname : Option String := none
  company_name : Option String := none
  address : Option String := none
deriving DecidableEq, Repr

/-- The raw Prembly response map as the provider sees it: `status`,
`response_code`, `message`, optional `data`, and the `error` key the catch
branch of `verify` injects. -/
structure PremblyRaw where
  status : Bool
  response_code : String
  message : String
  dataFields : Option PremblyData := none
  error : Option String := none
deriving DecidableEq, Repr

/-- `VerificationResult` from `verification.provider.ts`. -/
structure VerificationResult where
  isValid : Bool
  data : Option PremblyData := none
  error : Option String := none
deriving DecidableEq, Repr

/-- Retry configuration the Prembly provider passes on both of its calls. -/
def premblyRetryConfig : RetryConfig :=
  { enabled := some true
    maxRetries := some 3
    retryDelay := some 1000
    retryableStatusCodes := some [408, 429, 500, 502, 503, 504] }

/-- `PremblyVerificationProvider.verifyNIN`: a `requestService.post` with retry
enabled and no catch of its own — a normalized failure thrown by the client
propagates to the caller. -/
def premblyVerifyNIN (attempts : Nat → AttemptResult PremblyRaw) :
    Except RequestError PremblyRaw :=
  (request attempts (some premblyRetryConfig)).1

/-- `PremblyVerificationProvider.verifyRCNumber`: strips a leading `"RC-"` from
the number for the POST body (the body itself is not further modelled), same
retry configuration, and again no catch of its own. -/
def premblyVerifyRCNumber (rcNumber : String) (attempts : Nat → AttemptResult PremblyRaw) :
    Except RequestError PremblyRaw :=
  let _number := if rcNumber.startsWith "RC-" then rcNumber.drop 3 else rcNumber
  (request attempts (some premblyRetryConfig)).1

/-- `PremblyVerificationProvider.verify`: dispatch on the id type with a
catch-all. The value thrown by the request client is a plain object, not an
`Error` instance, so the catch's `error instanceof Error` test is false and the
fallback strings are used. -/
def premblyVerify (idNumber : String) (idType : IDType)
    (attempts : Nat → AttemptResult PremblyRaw) : PremblyRaw :=
  let call :=
    match idType with
    | .nigerian_national_id => premblyVerifyNIN attempts
    | .rc_number => premblyVerifyRCNumber idNumber attempts
  match call with
  | Except.ok raw => raw
  | Except.error _ =>
      { status := false
        response_code := "ERROR"
        message := "Verification failed"
        error := some "Unknown error" }

/-- `PremblyVerificationProvider.transform`: an injected `error` key (when
truthy) wins, then the `status` flag and the `"200"` response code must both
indicate success — the absence of the expected response code is a failure even
when `status` is true. -/
def premblyTransform (raw : PremblyRaw) : VerificationResult :=
  let errTruthy :=
    match raw.error with
    | some e => e != ""
    | none => false
  if errTruthy then
    { isValid := false
      error := some (raw.error.getD "Verification failed")
      data := raw.dataFields }
  else if !raw.status || raw.response_code != "200" then
    { isValid := false
      error := some (jsStrOr raw.message "Verification failed")
      data := raw.dataFields }
  else
    { isValid := true, data := raw.dataFields }

/-! ### IdVerificationService (external verification orchestrator)

Per the module wiring, the orchestrator's provider is the
`PremblyVerificationProvider`; its calls are threaded through the same
`attempts` transport model. The orchestrator invokes the provider's `verifyNIN`
and `verifyRCNumber` directly (not the catch-all `verify`), so these calls can
throw: results are `Except IdVerifyThrow`, distinguishing domain errors from a
propagated transport error. -/

/-- `IdVerificationError` with its stable machine-readable `code`. -/
structure IdVerificationError where
  message : String
  code : String
deriving DecidableEq, Repr

/-- What `verifyId` can throw: a typed domain error, or the normalized transport
error that escapes the provider call. -/
inductive IdVerifyThrow
  | domain (e : IdVerificationError)
  | transport (e : RequestError)
deriving DecidableEq, Repr

/-- `VALID_ID_TYPES` capability table. -/
def VALID_ID_TYPES : UserType → List IDType
  | .logistics_company => [.rc_number]
  | .individual => [.nigerian_national_id]
  | .rider => [.nigerian_national_id]

/-- The `/^\d{6}$/` test in `verifyRCNumber`. -/
def rcFormatOk (s : String) : Bool :=
  s.length == 6 && s.toList.all Char.isDigit

/-- `IdVerificationService.checkBusinessName`: `data.company_name` must exist,
be a truthy string, and match the stored company name case-insensitively. -/
def checkBusinessName (company : CompanyProfile) (verificationResult : VerificationResult) :
    Bool :=
  match verificationResult.data with
  | none => false
  | some d =>
      match d.company_name with
      | none => false
      | some name => name != "" && jsToLowerCase name == jsToLowerCase company.companyName

/-- `IdVerificationService.checkAddress`: same shape for the address field. -/
def checkAddress (company : CompanyProfile) (verificationResult : VerificationResult) : Bool :=
  match verificationResult.data with
  | none => false
  | some d =>
      match d.address with
      | none => false
      | some a => a != "" && jsToLowerCase a == jsToLowerCase company.address

/-- `IdVerificationService.verifyRCNumber` (orchestrator side): format gate,
profile load, uniqueness gate against *other* users, provider call (which may
throw), transform, cross-checks, persist. -/
def idv_verifyRCNumber (db : Db) (userId : Nat) (idNumber : String)
    (attempts : Nat → AttemptResult PremblyRaw) : Except IdVerifyThrow Unit × Db :=
  if !rcFormatOk idNumber then
    (Except.error (.domain
      ⟨"RC Number must be a string of exactly 6 digits (e.g., 092932)", "INVALID_RC_FORMAT"⟩), db)
  else
    match companyProfile_findByUserId db userId with
    | none => (Except.error (.domain ⟨"Company profile not found", "PROFILE_NOT_FOUND"⟩), db)
    | some companyProfile =>
        let rcTaken :=
          match companyProfile_findByRcNumber db idNumber with
          | some existingCompany => existingCompany.userId != userId
          | none => false
        if rcTaken then
          (Except.error (.domain
            ⟨"A company with this RC number already exists", "RC_NUMBER_EXISTS"⟩), db)
        else
          match premblyVerifyRCNumber idNumber attempts with
          | Except.error e => (Except.error (.transport e), db)
          | Except.ok response =>
              let verificationResult := premblyTransform response
              if !verificationResult.isValid ||
                  !checkBusinessName companyProfile verificationResult ||
                  !checkAddress companyProfile verificationResult then
                (Except.error (.domain
                  ⟨verificationResult.error.getD "ID verification failed",
                   "VERIFICATION_FAILED"⟩), db)
              else
                (Except.ok (), companyProfile_update_rcNumber db userId idNumber)

/-- `IdVerificationService.verifyNigerianNationalId` (orchestrator side):
re-load the user, uniqueness gate against *other* users via the national-id
lookup, provider call (which may throw), transform. -/
def idv_verifyNigerianNationalId (db : Db) (userId : Nat) (idNumber : String)
    (attempts : Nat → AttemptResult PremblyRaw) : Except IdVerifyThrow Unit × Db :=
  match user_findById db userId with
  | none => (Except.error (.domain ⟨"User not found", "USER_NOT_FOUND"⟩), db)
  | some _ =>
      let ninTaken :=
        match user_findByNigerianNationalId db idNumber with
        | some existingUser => existingUser.id != userId
        | none => false
      if ninTaken then
        (Except.error (.domain
          ⟨"A user with this Nigerian National ID already exists",
           "NIGERIAN_NATIONAL_ID_EXISTS"⟩), db)
      else
        match premblyVerifyNIN attempts with
        | Except.error e => (Except.error (.transport e), db)
        | Except.ok response =>
            let verificationResult := premblyTransform response
            if !verificationResult.isValid then
              (Except.error (.domain
                ⟨verificationResult.error.getD "ID verification failed",
                 "VERIFICATION_FAILED"⟩), db)
            else
              (Except.ok (), db)

/-- `IdVerificationService.verifyId`: user load, capability-table gate, dispatch
by id type. (The `switch` default is unreachable: both `IDType` variants have a
case.) -/
def verifyId (db : Db) (userId : Nat) (idNumber : String) (idType : IDType)
    (attempts : Nat → AttemptResult PremblyRaw) : Except IdVerifyThrow Unit × Db :=
  match user_findById db userId with
  | none => (Except.error (.domain ⟨"User not found", "USER_NOT_FOUND"⟩), db)
  | some user =>
      if !(VALID_ID_TYPES user.userType).contains idType then
        (Except.error (.domain
          ⟨"This ID type is not supported for this user type", "INVALID_ID_TYPE"⟩), db)
      else
        match idType with
        | .rc_number => idv_verifyRCNumber db userId idNumber attempts
        | .nigerian_national_id => idv_verifyNigerianNationalId db userId idNumber attempts

/-- Modelled from the spec: the error-code taxonomy stated for the External
Verification Orchestrator component, used to compare the codes the code
actually raises against the spec's list. -/
def specVerificationErrorTaxonomy : List String :=
  ["USER_NOT_FOUND", "INVALID_ID_TYPE", "INVALID_RC_FORMAT", "PROFILE_NOT_FOUND",
   "RC_NUMBER_EXISTS", "NATIONAL_ID_EXISTS", "VERIFICATION_FAILED", "UNSUPPORTED_ID_TYPE"]

/-! ### Shared helper lemmas -/

/-- A `find?` by primary key misses every row whose id is below the probed id. -/
theorem users_find?_id_none (l : List User) (n : Nat) (h : ∀ u ∈ l, u.id < n) :
    l.find? (fun u => u.id == n) = none := by
  refine List.find?_eq_none.mpr fun u hu => ?_
  simpa using Nat.ne_of_lt (h u hu)

theorem iprofiles_find?_userId_none (l : List IndividualProfile) (n : Nat)
    (h : ∀ p ∈ l, p.userId < n) :
    l.find? (fun p => p.userId == n) = none := by
  refine List.find?_eq_none.mpr fun p hp => ?_
  simpa using Nat.ne_of_lt (h p hp)

theorem cprofiles_find?_userId_none (l : List CompanyProfile) (n : Nat)
    (h : ∀ p ∈ l, p.userId < n) :
    l.find? (fun p => p.userId == n) = none := by
  refine List.find?_eq_none.mpr fun p hp => ?_
  simpa using Nat.ne_of_lt (h p hp)

theorem identities_find?_userId_none (l : List OAuthIdentity) (n : Nat) (s : String)
    (h : ∀ i ∈ l, i.userId < n) :
    l.find? (fun i => i.userId == n && i.provider == s) = none := by
  refine List.find?_eq_none.mpr fun i hi => ?_
  simp only [Bool.and_eq_true, beq_iff_eq, not_and]
  intro hid
  exact absurd hid (Nat.ne_of_lt (h i hi))

/-! ### C7 — retry backoff delay bounds -/

/-- C7: the backoff delay for attempt n with base delay b equals
`min(b * 2^(n-1) * (1 + j), 30000)` for a jitter factor `j ∈ [0, 0.3)` derived
from the random sample; with b = 1000, attempt 1 lands in [1000, 1300) and
attempt 3 in [4000, 5200); the delay never exceeds 30000 ms. -/
theorem calculateBackoffDelay_bounds (r : ℚ) (h0 : 0 ≤ r) (h1 : r < 1) :
    (∀ attempt : Nat, ∀ baseDelay : ℚ, ∃ j : ℚ, 0 ≤ j ∧ j < 3 / 10 ∧
        calculateBackoffDelay attempt baseDelay r =
          min (baseDelay * 2 ^ (attempt - 1) * (1 + j)) 30000) ∧
    (1000 ≤ calculateBackoffDelay 1 1000 r ∧ calculateBackoffDelay 1 1000 r < 1300) ∧
    (4000 ≤ calculateBackoffDelay 3 1000 r ∧ calculateBackoffDelay 3 1000 r < 5200) ∧
    (∀ attempt : Nat, ∀ baseDelay : ℚ, calculateBackoffDelay attempt baseDelay r ≤ 30000) := by
  have hform : ∀ attempt : Nat, ∀ baseDelay : ℚ,
      calculateBackoffDelay attempt baseDelay r =
        min (baseDelay * 2 ^ (attempt - 1) * (1 + r * (3 / 10))) 30000 := by
    intro attempt baseDelay
    unfold calculateBackoffDelay
    ring_nf
  have hd1 : calculateBackoffDelay 1 1000 r = 1000 + 300 * r := by
    rw [hform 1 1000, show ((1 : Nat) - 1) = 0 from rfl, pow_zero]
    rw [min_eq_left (by nlinarith)]
    ring
  have hd3 : calculateBackoffDelay 3 1000 r = 4000 + 1200 * r := by
    rw [hform 3 1000, show ((3 : Nat) - 1) = 2 from rfl]
    rw [min_eq_left (by nlinarith)]
    ring
  refine ⟨fun attempt baseDelay => ⟨r * (3 / 10), by positivity, by nlinarith, hform attempt baseDelay⟩,
    ⟨?_, ?_⟩, ⟨?_, ?_⟩, fun attempt baseDelay => ?_⟩
  · rw [hd1]; linarith
  · rw [hd1]; linarith
  · rw [hd3]; linarith
  · rw [hd3]; linarith
  · rw [hform]; exact min_le_right _ _

/-- C7 witness: the bounds instantiated at the concrete random sample 1/2. -/
theorem calculateBackoffDelay_bounds_witness :
    (1000 ≤ calculateBackoffDelay 1 1000 (1 / 2) ∧ calculateBackoffDelay 1 1000 (1 / 2) < 1300) ∧
    (4000 ≤ calculateBackoffDelay 3 1000 (1 / 2) ∧ calculateBackoffDelay 3 1000 (1 / 2) < 5200) :=
  ⟨(calculateBackoffDelay_bounds (1 / 2) (by norm_num) (by norm_num)).2.1,
   (calculateBackoffDelay_bounds (1 / 2) (by norm_num) (by norm_num)).2.2.1⟩

/-! ### C2 — linking an already-linked provider account to a different user -/

/-- C2: when an OAuthIdentity for `(provider, providerAccountId)` is bound to a
different user, `linkOAuthIdentity` fails with `OAUTH_ACCOUNT_LINKED` and
performs no mutation: the returned state is exactly the input state, so the
existing identity row and everything else are unchanged. -/
theorem linkOAuthIdentity_conflict_no_mutation
    (db : Db) (userId : Nat) (provider providerAccountId providerEmail : String)
    (identity : OAuthIdentity)
    (hfound : oauthIdentity_findByProviderAndAccountId db provider providerAccountId =
      some identity)
    (hdiff : identity.userId ≠ userId) :
    linkOAuthIdentity db userId provider providerAccountId providerEmail =
      (Except.error
        ⟨"This OAuth account is already linked to another user", "OAUTH_ACCOUNT_LINKED"⟩, db) := by
  unfold linkOAuthIdentity
  rw [hfound]
  simp [hdiff]

/-- C2 witness: a two-user state where the google account `g-1` is linked to
user 0 and user 1 attempts to link it. -/
theorem linkOAuthIdentity_conflict_no_mutation_witness :
    linkOAuthIdentity
      { users := [], individualProfiles := [], companyProfiles := []
        oauthIdentities := [⟨2, "google", "g-1", none, 0⟩], nextId := 3 }
      1 "google" "g-1" "b@x.com" =
      (Except.error
        ⟨"This OAuth account is already linked to another user", "OAUTH_ACCOUNT_LINKED"⟩,
       { users := [], individualProfiles := [], companyProfiles := []
         oauthIdentities := [⟨2, "google", "g-1", none, 0⟩], nextId := 3 }) :=
  linkOAuthIdentity_conflict_no_mutation _ 1 "google" "g-1" "b@x.com"
    ⟨2, "google", "g-1", none, 0⟩ (by decide) (by decide)

/-! ### C3 — unlink guard against orphaning the last authentication method -/

/-- C3: `unlinkProvider` for an existing user fails with
`CANNOT_UNLINK_ONLY_AUTH` and deletes nothing when the user is password-less and
holds at most one linked identity (counted before deletion); it deletes the
`(userId, provider)` identity row and succeeds when a password is set or at
least two identities are linked — a set password counts as an independent
authentication method. -/
theorem unlinkProvider_guard
    (db : Db) (userId : Nat) (provider : String) (user : User)
    (huser : user_findById db userId = some user) :
    (user.password = none → (oauthIdentity_findByUserId db userId).length ≤ 1 →
      unlinkProvider db userId provider =
        (Except.error
          ⟨"Cannot unlink the only authentication method. Please set a password first.",
           "CANNOT_UNLINK_ONLY_AUTH"⟩, db)) ∧
    ((user.password ≠ none ∨ 2 ≤ (oauthIdentity_findByUserId db userId).length) →
      unlinkProvider db userId provider =
        (Except.ok (), oauthIdentity_deleteByUserIdAndProvider db userId provider) ∧
      oauthIdentity_findByUserIdAndProvider
        (oauthIdentity_deleteByUserIdAndProvider db userId provider) userId provider = none) := by
  constructor
  · intro hpw hlen
    unfold unlinkProvider
    rw [huser]
    simp [hpw, hlen]
  · intro h
    have hcond : (!user.password.isSome && decide ((oauthIdentity_findByUserId db userId).length ≤ 1)) = false := by
      rcases h with h | h
      · simp [Option.isSome_iff_ne_none, h]
      · simp [show ¬ (oauthIdentity_findByUserId db userId).length ≤ 1 by omega]
    refine ⟨?_, ?_⟩
    · unfold unlinkProvider
      rw [huser]
      simp only [hcond, Bool.false_eq_true, if_false]
    · unfold oauthIdentity_findByUserIdAndProvider oauthIdentity_deleteByUserIdAndProvider
      refine List.find?_eq_none.mpr fun i hi => ?_
      have hmem := List.of_mem_filter hi
      simp only [Bool.not_eq_true'] at hmem
      simp [hmem]

/-- C3 witness: user 0 is password-less with exactly one linked identity, so the
unlink is refused; user 0 in the second state has a password, so the same unlink
deletes the row. -/
theorem unlinkProvider_guard_witness :
    unlinkProvider
      { users := [⟨0, "a@x.com", none, .individual, false, false, true, true⟩]
        individualProfiles := [], companyProfiles := []
        oauthIdentities := [⟨1, "google", "g-1", none, 0⟩], nextId := 2 }
      0 "google" =
      (Except.error
        ⟨"Cannot unlink the only authentication method. Please set a password first.",
         "CANNOT_UNLINK_ONLY_AUTH"⟩,
       { users := [⟨0, "a@x.com", none, .individual, false, false, true, true⟩]
         individualProfiles := [], companyProfiles := []
         oauthIdentities := [⟨1, "google", "g-1", none, 0⟩], nextId := 2 }) ∧
    unlinkProvider
      { users := [⟨0, "a@x.com", some "hashed$pw", .individual, false, false, true, true⟩]
        individualProfiles := [], companyProfiles := []
        oauthIdentities := [⟨1, "google", "g-1", none, 0⟩], nextId := 2 }
      0 "google" =
      (Except.ok (),
       oauthIdentity_deleteByUserIdAndProvider
         { users := [⟨0, "a@x.com", some "hashed$pw", .individual, false, false, true, true⟩]
           individualProfiles := [], companyProfiles := []
           oauthIdentities := [⟨1, "google", "g-1", none, 0⟩], nextId := 2 }
         0 "google") :=
  ⟨(unlinkProvider_guard
      { users := [⟨0, "a@x.com", none, .individual, false, false, true, true⟩]
        individualProfiles := [], companyProfiles := []
        oauthIdentities := [⟨1, "google", "g-1", none, 0⟩], nextId := 2 }
      0 "google"
      ⟨0, "a@x.com", none, .individual, false, false, true, true⟩ rfl).1 rfl (by decide),
   ((unlinkProvider_guard
      { users := [⟨0, "a@x.com", some "hashed$pw", .individual, false, false, true, true⟩]
        individualProfiles := [], companyProfiles := []
        oauthIdentities := [⟨1, "google", "g-1", none, 0⟩], nextId := 2 }
      0 "google"
      ⟨0, "a@x.com", some "hashed$pw", .individual, false, false, true, true⟩ rfl).2
      (Or.inl (by decide))).1⟩

/-! ### Retry machinery lemmas shared by the request-client claims -/

/-- `executeWithRetry` behaves identically under configurations that agree on
`maxRetries`: the retryable-set fields are never consulted. -/
theorem executeWithRetry_congr {T : Type} (attempts : Nat → AttemptResult T)
    (rc₁ rc₂ : RetryConfigFull) (h : rc₁.maxRetries = rc₂.maxRetries) :
    ∀ fuel attempt,
      executeWithRetry attempts rc₁ attempt fuel = executeWithRetry attempts rc₂ attempt fuel := by
  intro fuel
  induction fuel with
  | zero =>
      intro attempt
      unfold executeWithRetry
      cases executeRequest (attempts attempt) with
      | ok v => rfl
      | error e => simp only [h]
  | succ f ih =>
      intro attempt
      unfold executeWithRetry
      cases executeRequest (attempts attempt) with
      | ok v => rfl
      | error e =>
          simp only [h]
          split
          · exact ih (attempt + 1)
          · rfl

/-- The attempt counter of `executeWithRetry` grows by at most the fuel. -/
theorem executeWithRetry_attempts_le {T : Type} (attempts : Nat → AttemptResult T)
    (rc : RetryConfigFull) :
    ∀ fuel attempt, (executeWithRetry attempts rc attempt fuel).2 ≤ attempt + fuel := by
  intro fuel
  induction fuel with
  | zero =>
      intro attempt
      unfold executeWithRetry
      cases executeRequest (attempts attempt) with
      | ok v => simp
      | error e =>
          simp only []
          split <;> simp
  | succ f ih =>
      intro attempt
      unfold executeWithRetry
      cases executeRequest (attempts attempt) with
      | ok v => simp
      | error e =>
          simp only []
          split
          · exact le_trans (ih (attempt + 1)) (by omega)
          · simp

/-- A hashed password is never the empty string, so it is truthy in the login
password check. -/
theorem hashPassword_ne_empty (p : String) : hashPassword p ≠ "" := by
  unfold hashPassword
  intro h
  have hlen := congrArg String.length h
  rw [String.length_append, show ("hashed$").length = 7 from rfl,
    show ("" : String).length = 0 from rfl] at hlen
  omega

/-! ### C4 — case-insensitive email uniqueness at registration -/

/-- C4: for two email strings equal up to letter case (and, being emails,
carrying no surrounding whitespace), a first `registerIndividual` succeeds and
stores the email lowercased and trimmed, and a second registration with the
other casing fails with exactly one `EMAIL_EXISTS` error and creates no User or
Profile row: the state after the failing call is exactly the state after the
first one. -/
theorem registerIndividual_email_case_insensitive
    (db₀ : Db) (i₁ i₂ : RegisterIndividualInput)
    (hcase : jsToLowerCase i₁.email = jsToLowerCase i₂.email)
    (hws : jsTrim (jsToLowerCase i₁.email) = jsToLowerCase i₁.email)
    (hfresh : user_findByEmail db₀ i₁.email = none)
    (hterms : i₁.termsAccepted = true) :
    ∃ resp db₁,
      registerIndividual db₀ i₁ = (Except.ok resp, db₁) ∧
      (∃ u ∈ db₁.users, u.id = resp.user_id ∧ u.email = jsTrim (jsToLowerCase i₁.email)) ∧
      registerIndividual db₁ i₂ =
        (Except.error ⟨"A user with this email already exists", "EMAIL_EXISTS"⟩, db₁) := by
  have hex : user_existsByEmail db₀ i₁.email = false := by
    unfold user_existsByEmail
    rw [hfresh]
    rfl
  have h1 : registerIndividual db₀ i₁ =
      (Except.ok
        { profile := ProfileData.individual
            ⟨db₀.nextId + 1, jsTrim i₁.firstName, jsTrim i₁.lastName, i₁.phone.map jsTrim, none,
              db₀.nextId⟩
          tokens := ⟨⟨jsTrim (jsToLowerCase i₁.email), db₀.nextId, .individual⟩⟩
          user_id := db₀.nextId },
       { users := db₀.users ++
           [⟨db₀.nextId, jsTrim (jsToLowerCase i₁.email), some (hashPassword i₁.password),
             .individual, false, false, true, true⟩]
         individualProfiles := db₀.individualProfiles ++
           [⟨db₀.nextId + 1, jsTrim i₁.firstName, jsTrim i₁.lastName, i₁.phone.map jsTrim, none,
             db₀.nextId⟩]
         companyProfiles := db₀.companyProfiles
         oauthIdentities := db₀.oauthIdentities
         nextId := db₀.nextId + 1 + 1 }) := by
    unfold registerIndividual
    rw [hex, hterms]
    rfl
  refine ⟨_, _, h1, ?_, ?_⟩
  · refine ⟨⟨db₀.nextId, jsTrim (jsToLowerCase i₁.email), some (hashPassword i₁.password),
      .individual, false, false, true, true⟩, ?_, rfl, rfl⟩
    simp
  · have hfind2 : user_findByEmail
        { users := db₀.users ++
            [⟨db₀.nextId, jsTrim (jsToLowerCase i₁.email), some (hashPassword i₁.password),
              .individual, false, false, true, true⟩]
          individualProfiles := db₀.individualProfiles ++
            [⟨db₀.nextId + 1, jsTrim i₁.firstName, jsTrim i₁.lastName, i₁.phone.map jsTrim, none,
              db₀.nextId⟩]
          companyProfiles := db₀.companyProfiles
          oauthIdentities := db₀.oauthIdentities
          nextId := db₀.nextId + 1 + 1 } i₂.email =
        some ⟨db₀.nextId, jsTrim (jsToLowerCase i₁.email), some (hashPassword i₁.password),
          .individual, false, false, true, true⟩ := by
      unfold user_findByEmail at hfresh ⊢
      rw [List.find?_append]
      have h0 : db₀.users.find? (fun u => u.email == jsToLowerCase i₂.email) = none := by
        rw [← hcase]
        exact hfresh
      rw [h0]
      simp only [Option.none_or]
      have : jsTrim (jsToLowerCase i₁.email) == jsToLowerCase i₂.email := by
        rw [hws, hcase]
        exact beq_self_eq_true _
      simp [List.find?, this]
    unfold registerIndividual user_existsByEmail
    rw [hfind2]
    rfl

/-- C4 witness: registering "A@Test.com" stores "a@test.com"; re-registering as
"a@TEST.com" is rejected with `EMAIL_EXISTS` and changes nothing. -/
theorem registerIndividual_email_case_insensitive_witness :
    ∃ resp db₁,
      registerIndividual ⟨[], [], [], [], 0⟩
        ⟨"A@Test.com", "pw", "Ada", "Lovelace", none, true⟩ = (Except.ok resp, db₁) ∧
      (∃ u ∈ db₁.users, u.id = resp.user_id ∧ u.email = jsTrim (jsToLowerCase "A@Test.com")) ∧
      registerIndividual db₁ ⟨"a@TEST.com", "pw2", "Ada", "Lovelace", none, true⟩ =
        (Except.error ⟨"A user with this email already exists", "EMAIL_EXISTS"⟩, db₁) :=
  registerIndividual_email_case_insensitive ⟨[], [], [], [], 0⟩
    ⟨"A@Test.com", "pw", "Ada", "Lovelace", none, true⟩
    ⟨"a@TEST.com", "pw2", "Ada", "Lovelace", none, true⟩
    (by decide) (by decide) rfl rfl

/-! ### C1 — OAuth callback idempotence in (provider, providerAccountId) -/

/-- C1: from any well-formed state in which the OAuth account
`(provider, providerAccountId)` is unlinked and the asserted email is unknown,
the first callback creates exactly one User, one Profile and one OAuthIdentity,
and a second callback carrying the same `(provider, providerAccountId)` raises
no error, returns the very same response (in particular the same userId) and
leaves the state exactly unchanged — so no new rows appear and the
linked-provider set is untouched. -/
theorem authenticateWithOAuth_idempotent
    (db₀ : Db) (input input' : OAuthAuthInput)
    (hwf : DbWF db₀)
    (hfreshid : oauthIdentity_findByProviderAndAccountId db₀ input.provider
      input.providerAccountId = none)
    (hfreshmail : user_findByEmail db₀ input.email = none)
    (hp : input'.provider = input.provider)
    (hpa : input'.providerAccountId = input.providerAccountId) :
    ∃ resp db₁,
      authenticateWithOAuth db₀ input = (Except.ok resp, db₁) ∧
      db₁.users.length = db₀.users.length + 1 ∧
      db₁.individualProfiles.length = db₀.individualProfiles.length + 1 ∧
      db₁.oauthIdentities.length = db₀.oauthIdentities.length + 1 ∧
      authenticateWithOAuth db₁ input' = (Except.ok resp, db₁) := by
  have hid0 : db₀.oauthIdentities.find?
      (fun i => i.provider == input.provider && i.providerAccountId == input.providerAccountId) =
      none := hfreshid
  have hmail0 : db₀.users.find? (fun u => u.email == jsToLowerCase input.email) = none :=
    hfreshmail
  have hlink0 : db₀.oauthIdentities.find?
      (fun i => i.userId == db₀.nextId && i.provider == input.provider) = none :=
    identities_find?_userId_none db₀.oauthIdentities db₀.nextId input.provider
      (fun i hi => (hwf.2.2.2 i hi).2)
  have h1 : authenticateWithOAuth db₀ input =
      (Except.ok
        { profile := ProfileData.individual
            ⟨db₀.nextId + 1, jsTrim input.firstName, jsTrim input.lastName, none, none,
              db₀.nextId⟩
          tokens := ⟨⟨jsTrim (jsToLowerCase input.email), db₀.nextId, .individual⟩⟩
          user_id := db₀.nextId },
       { users := db₀.users ++
           [⟨db₀.nextId, jsTrim (jsToLowerCase input.email), none, .individual,
             input.emailVerified, false, true, true⟩]
         individualProfiles := db₀.individualProfiles ++
           [⟨db₀.nextId + 1, jsTrim input.firstName, jsTrim input.lastName, none, none,
             db₀.nextId⟩]
         companyProfiles := db₀.companyProfiles
         oauthIdentities := db₀.oauthIdentities ++
           [⟨db₀.nextId + 1 + 1, input.provider, input.providerAccountId,
             some (jsTrim (jsToLowerCase input.email)), db₀.nextId⟩]
         nextId := db₀.nextId + 1 + 1 + 1 }) := by
    unfold authenticateWithOAuth findUserByProviderIdentity user_findByEmail createUserWithOAuth
      linkOAuthIdentity oauthIdentity_findByUserIdAndProvider user_create individualProfile_create
      oauthIdentity_create
    simp only [oauthIdentity_findByProviderAndAccountId, generateTokens, hid0, hmail0, hlink0,
      Bool.false_eq_true, if_false]
  refine ⟨_, _, h1, by simp, by simp, by simp, ?_⟩
  have hid1 : List.find?
      (fun (i : OAuthIdentity) =>
        i.provider == input'.provider && i.providerAccountId == input'.providerAccountId)
      (db₀.oauthIdentities ++
        [(⟨db₀.nextId + 1 + 1, input.provider, input.providerAccountId,
          some (jsTrim (jsToLowerCase input.email)), db₀.nextId⟩ : OAuthIdentity)]) =
      some ⟨db₀.nextId + 1 + 1, input.provider, input.providerAccountId,
        some (jsTrim (jsToLowerCase input.email)), db₀.nextId⟩ := by
    rw [hp, hpa, List.find?_append, hid0]
    simp [List.find?]
  have huser1 : List.find? (fun (u : User) => u.id == db₀.nextId)
      (db₀.users ++
        [(⟨db₀.nextId, jsTrim (jsToLowerCase input.email), none, .individual,
          input.emailVerified, false, true, true⟩ : User)]) =
      some ⟨db₀.nextId, jsTrim (jsToLowerCase input.email), none, .individual,
        input.emailVerified, false, true, true⟩ := by
    rw [List.find?_append, users_find?_id_none db₀.users db₀.nextId hwf.1]
    simp [List.find?]
  have hprof1 : List.find? (fun (p : IndividualProfile) => p.userId == db₀.nextId)
      (db₀.individualProfiles ++
        [(⟨db₀.nextId + 1, jsTrim input.firstName, jsTrim input.lastName, none, none,
          db₀.nextId⟩ : IndividualProfile)]) =
      some ⟨db₀.nextId + 1, jsTrim input.firstName, jsTrim input.lastName, none, none,
        db₀.nextId⟩ := by
    rw [List.find?_append,
      iprofiles_find?_userId_none db₀.individualProfiles db₀.nextId
        (fun p hp => (hwf.2.1 p hp).2)]
    simp [List.find?]
  unfold authenticateWithOAuth findUserByProviderIdentity oauthIdentity_findByProviderAndAccountId
    individualProfile_findByUserId generateTokens
  simp only [hid1, huser1, hprof1]

/-- C1 witness: a first callback for google account "g-123" with a brand-new
email, then an identical second callback, on the empty store. -/
theorem authenticateWithOAuth_idempotent_witness :
    ∃ resp db₁,
      authenticateWithOAuth ⟨[], [], [], [], 0⟩
        ⟨"new@user.com", true, "New", "User", "google", "g-123"⟩ = (Except.ok resp, db₁) ∧
      db₁.users.length = 0 + 1 ∧
      db₁.individualProfiles.length = 0 + 1 ∧
      db₁.oauthIdentities.length = 0 + 1 ∧
      authenticateWithOAuth db₁ ⟨"new@user.com", true, "New", "User", "google", "g-123"⟩ =
        (Except.ok resp, db₁) :=
  authenticateWithOAuth_idempotent ⟨[], [], [], [], 0⟩
    ⟨"new@user.com", true, "New", "User", "google", "g-123"⟩
    ⟨"new@user.com", true, "New", "User", "google", "g-123"⟩
    (by decide) rfl rfl rfl rfl

/-! ### C6 — national-ID conflict error code versus the spec's taxonomy -/

/-- C6 counterexample: on the national-ID path with another user claiming the
submitted number, `verifyId` raises the code `NIGERIAN_NATIONAL_ID_EXISTS`,
which differs from the taxonomy's `NATIONAL_ID_EXISTS` and is not a member of
the component's stated taxonomy at all. -/
theorem verifyId_national_id_conflict_code_counterexample :
    verifyId
      ⟨[⟨0, "a@x.com", none, .individual, false, false, true, true⟩,
        ⟨1, "b@x.com", none, .individual, false, false, true, true⟩],
       [⟨2, "Bea", "Ng", none, some "63184876213", 1⟩], [], [], 3⟩
      0 "63184876213" IDType.nigerian_national_id (fun _ => AttemptResult.otherFailure) =
      (Except.error (IdVerifyThrow.domain
        ⟨"A user with this Nigerian National ID already exists",
         "NIGERIAN_NATIONAL_ID_EXISTS"⟩),
       ⟨[⟨0, "a@x.com", none, .individual, false, false, true, true⟩,
         ⟨1, "b@x.com", none, .individual, false, false, true, true⟩],
        [⟨2, "Bea", "Ng", none, some "63184876213", 1⟩], [], [], 3⟩) ∧
    "NIGERIAN_NATIONAL_ID_EXISTS" ≠ "NATIONAL_ID_EXISTS" ∧
    "NIGERIAN_NATIONAL_ID_EXISTS" ∉ specVerificationErrorTaxonomy := by
  refine ⟨rfl, by decide, by decide⟩

/-- C6 amended: when a different user already claims the submitted national-ID
number, `verifyId` fails with the code `NIGERIAN_NATIONAL_ID_EXISTS` (and
performs no mutation); that code is not part of the taxonomy the spec states
for this component. -/
theorem verifyId_national_id_conflict_code
    (db : Db) (userId : Nat) (idNumber : String)
    (attempts : Nat → AttemptResult PremblyRaw) (user other : User)
    (huser : user_findById db userId = some user)
    (htype : (VALID_ID_TYPES user.userType).contains IDType.nigerian_national_id = true)
    (hexist : user_findByNigerianNationalId db idNumber = some other)
    (hother : other.id ≠ userId) :
    verifyId db userId idNumber IDType.nigerian_national_id attempts =
      (Except.error (IdVerifyThrow.domain
        ⟨"A user with this Nigerian National ID already exists",
         "NIGERIAN_NATIONAL_ID_EXISTS"⟩), db) ∧
    "NIGERIAN_NATIONAL_ID_EXISTS" ∉ specVerificationErrorTaxonomy := by
  refine ⟨?_, by decide⟩
  have hbne : (other.id != userId) = true := by
    simp [bne_iff_ne, hother]
  unfold verifyId idv_verifyNigerianNationalId
  simp only [huser, htype, Bool.not_true, Bool.false_eq_true, if_false, hexist, hbne, if_true]

/-- C6 witness: the amended statement applied to the concrete two-user state of
the counterexample. -/
theorem verifyId_national_id_conflict_code_witness :
    verifyId
      ⟨[⟨0, "a@x.com", none, .individual, false, false, true, true⟩,
        ⟨1, "b@x.com", none, .individual, false, false, true, true⟩],
       [⟨2, "Bea", "Ng", none, some "63184876213", 1⟩], [], [], 3⟩
      0 "63184876213" IDType.nigerian_national_id (fun _ => AttemptResult.otherFailure) =
      (Except.error (IdVerifyThrow.domain
        ⟨"A user with this Nigerian National ID already exists",
         "NIGERIAN_NATIONAL_ID_EXISTS"⟩),
       ⟨[⟨0, "a@x.com", none, .individual, false, false, true, true⟩,
         ⟨1, "b@x.com", none, .individual, false, false, true, true⟩],
        [⟨2, "Bea", "Ng", none, some "63184876213", 1⟩], [], [], 3⟩) ∧
    "NIGERIAN_NATIONAL_ID_EXISTS" ∉ specVerificationErrorTaxonomy :=
  verifyId_national_id_conflict_code
    ⟨[⟨0, "a@x.com", none, .individual, false, false, true, true⟩,
      ⟨1, "b@x.com", none, .individual, false, false, true, true⟩],
     [⟨2, "Bea", "Ng", none, some "63184876213", 1⟩], [], [], 3⟩
    0 "63184876213" (fun _ => AttemptResult.otherFailure)
    ⟨0, "a@x.com", none, .individual, false, false, true, true⟩
    ⟨1, "b@x.com", none, .individual, false, false, true, true⟩
    rfl rfl rfl (by decide)

/-! ### C5 — transport failures escape the provider into `verifyId` -/

/-- C5: the catch that converts transport failures into a failed result lives
only in the provider's `verify` entry point; the orchestrator invokes
`verifyNIN` directly, which has no catch. At a state with a valid individual
user and a transport that fails with `ECONNRESET`, `verifyId` raises a thrown
transport error instead of receiving an `isValid = false` VerificationResult.
What escapes is the request client's re-normalization of the thrown plain
object — `{message: "Unknown error occurred", isRetryable: false}` after
exactly one attempt, the retry loop never firing — while routing the very same
transport outcome through `verify` would have produced `isValid = false`. -/
theorem verifyId_transport_error_escapes :
    verifyId
      ⟨[⟨0, "a@x.com", none, .individual, false, false, true, true⟩], [], [], [], 1⟩
      0 "12345678901" IDType.nigerian_national_id
      (fun _ => AttemptResult.axiosFailure none none none "read ECONNRESET" (some "ECONNRESET")) =
      (Except.error (IdVerifyThrow.transport
        { message := "Unknown error occurred", isRetryable := false }),
       ⟨[⟨0, "a@x.com", none, .individual, false, false, true, true⟩], [], [], [], 1⟩) ∧
    (request (T := PremblyRaw)
      (fun _ => AttemptResult.axiosFailure none none none "read ECONNRESET" (some "ECONNRESET"))
      (some premblyRetryConfig)).2 = 1 ∧
    (premblyTransform (premblyVerify "12345678901" IDType.nigerian_national_id
      (fun _ => AttemptResult.axiosFailure none none none "read ECONNRESET"
        (some "ECONNRESET")))).isValid = false := by
  refine ⟨rfl, rfl, rfl⟩

/-! ### C9 — login never finds a company user's profile -/

/-- C9 (implicit claim): a `logistics_company` user created by
`registerCompany` — which writes a company profile and no individual profile —
can never log in: `login` with the correct password against the active account
throws `PROFILE_NOT_FOUND`, because the profile lookup targets only the
individual-profile store regardless of the user's type. -/
theorem login_after_registerCompany_profile_not_found
    (db₀ : Db) (input : RegisterCompanyInput) (li : LoginInput)
    (hwf : DbWF db₀)
    (hfresh : user_findByEmail db₀ input.companyEmail = none)
    (hrc : companyProfile_findByRcNumber db₀ input.rcNumber = none)
    (hterms : input.termsAccepted = true)
    (hws : jsTrim (jsToLowerCase input.companyEmail) = jsToLowerCase input.companyEmail)
    (hlow2 : jsToLowerCase (jsToLowerCase input.companyEmail) = jsToLowerCase input.companyEmail)
    (hemail : li.email = input.companyEmail)
    (hpw : li.password = input.password) :
    ∃ resp db₁,
      registerCompany db₀ input = (Except.ok resp, db₁) ∧
      (∃ u ∈ db₁.users, u.id = resp.user_id ∧ u.userType = UserType.logistics_company ∧
        u.isActive = true) ∧
      login db₁ li = (Except.error ⟨"User profile not found", "PROFILE_NOT_FOUND"⟩, db₁) := by
  have hex : user_existsByEmail db₀ input.companyEmail = false := by
    unfold user_existsByEmail
    rw [hfresh]
    rfl
  have h1 : registerCompany db₀ input =
      (Except.ok
        { profile := ProfileData.company
            ⟨db₀.nextId + 1, jsTrim input.address, jsTrim (jsToLowerCase input.companyEmail),
              jsTrim input.companyName, input.companyPhone.map jsTrim, input.logoUrl,
              jsTrim input.rcNumber, db₀.nextId⟩
          tokens := ⟨⟨jsTrim (jsToLowerCase input.companyEmail), db₀.nextId, .logistics_company⟩⟩
          user_id := db₀.nextId },
       { users := db₀.users ++
           [⟨db₀.nextId, jsTrim (jsToLowerCase input.companyEmail),
             some (hashPassword input.password), .logistics_company, false, false, true, true⟩]
         individualProfiles := db₀.individualProfiles
         companyProfiles := db₀.companyProfiles ++
           [⟨db₀.nextId + 1, jsTrim input.address, jsTrim (jsToLowerCase input.companyEmail),
             jsTrim input.companyName, input.companyPhone.map jsTrim, input.logoUrl,
             jsTrim input.rcNumber, db₀.nextId⟩]
         oauthIdentities := db₀.oauthIdentities
         nextId := db₀.nextId + 1 + 1 }) := by
    unfold registerCompany
    rw [hex, hrc, hterms]
    rfl
  refine ⟨_, _, h1, ?_, ?_⟩
  · refine ⟨⟨db₀.nextId, jsTrim (jsToLowerCase input.companyEmail),
      some (hashPassword input.password), .logistics_company, false, false, true, true⟩,
      ?_, rfl, rfl, rfl⟩
    simp
  · have hfind : user_findByEmail
        { users := db₀.users ++
            [⟨db₀.nextId, jsTrim (jsToLowerCase input.companyEmail),
              some (hashPassword input.password), .logistics_company, false, false, true, true⟩]
          individualProfiles := db₀.individualProfiles
          companyProfiles := db₀.companyProfiles ++
            [⟨db₀.nextId + 1, jsTrim input.address, jsTrim (jsToLowerCase input.companyEmail),
              jsTrim input.companyName, input.companyPhone.map jsTrim, input.logoUrl,
              jsTrim input.rcNumber, db₀.nextId⟩]
          oauthIdentities := db₀.oauthIdentities
          nextId := db₀.nextId + 1 + 1 }
        (jsTrim (jsToLowerCase li.email)) =
        some ⟨db₀.nextId, jsTrim (jsToLowerCase input.companyEmail),
          some (hashPassword input.password), .logistics_company, false, false, true, true⟩ := by
      unfold user_findByEmail at hfresh ⊢
      rw [List.find?_append]
      have hkey : jsToLowerCase (jsTrim (jsToLowerCase li.email)) =
          jsToLowerCase input.companyEmail := by
        rw [hemail, hws, hlow2]
      rw [hkey, hfresh]
      simp only [Option.none_or]
      have : jsTrim (jsToLowerCase input.companyEmail) == jsToLowerCase input.companyEmail := by
        rw [hws]
        exact beq_self_eq_true _
      simp [List.find?, this]
    have hprof : individualProfile_findByUserId
        { users := db₀.users ++
            [⟨db₀.nextId, jsTrim (jsToLowerCase input.companyEmail),
              some (hashPassword input.password), .logistics_company, false, false, true, true⟩]
          individualProfiles := db₀.individualProfiles
          companyProfiles := db₀.companyProfiles ++
            [⟨db₀.nextId + 1, jsTrim input.address, jsTrim (jsToLowerCase input.companyEmail),
              jsTrim input.companyName, input.companyPhone.map jsTrim, input.logoUrl,
              jsTrim input.rcNumber, db₀.nextId⟩]
          oauthIdentities := db₀.oauthIdentities
          nextId := db₀.nextId + 1 + 1 }
        db₀.nextId = none := by
      unfold individualProfile_findByUserId
      exact iprofiles_find?_userId_none db₀.individualProfiles db₀.nextId
        (fun p hp => (hwf.2.1 p hp).2)
    have ht : jsTruthyPassword (some (hashPassword input.password)) = true := by
      simp [jsTruthyPassword, hashPassword_ne_empty]
    have hv : verifyPassword li.password
        ((some (hashPassword input.password)).getD "") = true := by
      rw [hpw]
      unfold verifyPassword
      simp only [Option.getD_some]
      exact beq_self_eq_true _
    simp only [login]
    rw [hfind]
    simp only [ht, hv, Bool.not_true, Bool.false_eq_true, if_false]
    rw [hprof]

/-- C9 witness: a freshly registered company user with the right password and an
active account is rejected at login with `PROFILE_NOT_FOUND`. -/
theorem login_after_registerCompany_profile_not_found_witness :
    ∃ resp db₁,
      registerCompany ⟨[], [], [], [], 0⟩
        ⟨"Co@Mail.com", "pw", "Acme", none, "1 Road", none, "123456", true⟩ =
        (Except.ok resp, db₁) ∧
      (∃ u ∈ db₁.users, u.id = resp.user_id ∧ u.userType = UserType.logistics_company ∧
        u.isActive = true) ∧
      login db₁ ⟨"Co@Mail.com", "pw"⟩ =
        (Except.error ⟨"User profile not found", "PROFILE_NOT_FOUND"⟩, db₁) :=
  login_after_registerCompany_profile_not_found ⟨[], [], [], [], 0⟩
    ⟨"Co@Mail.com", "pw", "Acme", none, "1 Road", none, "123456", true⟩
    ⟨"Co@Mail.com", "pw"⟩
    (by decide) rfl rfl rfl (by decide) (by decide) rfl rfl

/-! ### C8 — attempt-count contract of `request` -/

/-- C8: with retry disabled (the default after merging), `request` performs
exactly one attempt and raises that attempt's normalized error even when it is
retryable; the total attempt count never exceeds `maxRetries + 1` (so
`maxRetries = 3` allows at most 4 attempts); and with retry enabled every
failure — in particular a non-retryable one — is raised immediately after
exactly one attempt. The enabled path raises the catch's re-normalization of
the thrown plain object (`handleThrownRequestError`), whose `isRetryable` is
always false, so the at-most-`maxRetries + 1` bound holds degenerately: the
retry loop never actually retries. -/
theorem request_attempt_contract {T : Type} (attempts : Nat → AttemptResult T)
    (retry : Option RetryConfig) :
    ((mergeRetryConfig retry).enabled = false →
      request attempts retry = (executeRequest (attempts 1), 1)) ∧
    (request attempts retry).2 ≤ (mergeRetryConfig retry).maxRetries + 1 ∧
    (∀ e : RequestError, executeRequest (attempts 1) = Except.error e →
      (handleThrownRequestError e).isRetryable = false →
      (mergeRetryConfig retry).enabled = true →
      request attempts retry = (Except.error (handleThrownRequestError e), 1)) := by
  refine ⟨?_, ?_, ?_⟩
  · intro h
    simp only [request, h]
    rfl
  · by_cases h : (mergeRetryConfig retry).enabled
    · simp only [request, h, Bool.not_true, Bool.false_eq_true, if_false]
      exact le_trans
        (executeWithRetry_attempts_le attempts (mergeRetryConfig retry)
          (mergeRetryConfig retry).maxRetries 1) (by omega)
    · rw [Bool.not_eq_true] at h
      simp only [request, h]
      simp
  · intro e hfail hnr h
    simp only [request, h, Bool.not_true, Bool.false_eq_true, if_false]
    unfold executeWithRetry
    rw [hfail]
    simp only []
    rw [if_neg (by simp [hnr])]

/-- C8 witness: a 503 with retry disabled performs one attempt and raises the
retryable-marked informative normalized error; with retry enabled and
`maxRetries = 3` at most 4 attempts happen; a 400 with retry enabled is raised
after exactly one attempt as the catch's re-normalized error. -/
theorem request_attempt_contract_witness :
    request (T := Unit)
      (fun _ => AttemptResult.axiosFailure (some 503) none none "Service Unavailable" none)
      none =
      (Except.error
        { message := "Service Unavailable", status := some 503, statusText := none
          dataMessage := none, code := none, isRetryable := true }, 1) ∧
    (request (T := Unit)
      (fun _ => AttemptResult.axiosFailure (some 503) none none "Service Unavailable" none)
      (some { enabled := some true, maxRetries := some 3 })).2 ≤ 4 ∧
    request (T := Unit)
      (fun _ => AttemptResult.axiosFailure (some 400) none none "Bad Request" none)
      (some { enabled := some true, maxRetries := some 3 }) =
      (Except.error { message := "Unknown error occurred", isRetryable := false }, 1) := by
  refine ⟨?_, ?_, ?_⟩
  · rw [(request_attempt_contract
      (fun _ => AttemptResult.axiosFailure (some 503) none none "Service Unavailable" none)
      none).1 rfl]
    rfl
  · exact (request_attempt_contract
      (fun _ => AttemptResult.axiosFailure (some 503) none none "Service Unavailable" none)
      (some { enabled := some true, maxRetries := some 3 })).2.1
  · exact (request_attempt_contract
      (fun _ => AttemptResult.axiosFailure (some 400) none none "Bad Request" none)
      (some { enabled := some true, maxRetries := some 3 })).2.2 _ rfl rfl rfl

/-! ### C10 — retryability ignores the per-call retryable sets -/

/-- Custom retryable sets only influence `request` through `mergeRetryConfig`;
behavior depends on the merged config solely via `enabled` and `maxRetries`. -/
theorem request_retry_sets_irrelevant {T : Type} (attempts : Nat → AttemptResult T)
    (r₁ r₂ : RetryConfig) (he : r₁.enabled = r₂.enabled) (hm : r₁.maxRetries = r₂.maxRetries) :
    request attempts (some r₁) = request attempts (some r₂) := by
  simp only [request, mergeRetryConfig, he, hm]
  split
  · rfl
  · apply executeWithRetry_congr
    rfl

/-- C10: the retryability decision consults only the hard-coded defaults — a
failure is retryable exactly when its HTTP status is in
{408, 429, 500, 502, 503, 504} or its transport code is in
{ECONNRESET, ETIMEDOUT, ENOTFOUND, ECONNREFUSED}; per-call
`retryableStatusCodes`/`retryableErrors` are merged and accepted by
`mergeRetryConfig` but changing them never changes the outcome of `request`. -/
theorem retryability_ignores_custom_sets {T : Type} (attempts : Nat → AttemptResult T)
    (rc : RetryConfig) (sc : List Nat) (re : List String)
    (sc' : Option (List Nat)) (re' : Option (List String)) :
    (mergeRetryConfig
        (some { rc with retryableStatusCodes := some sc, retryableErrors := some re })).retryableStatusCodes = sc ∧
    (mergeRetryConfig
        (some { rc with retryableStatusCodes := some sc, retryableErrors := some re })).retryableErrors = re ∧
    request attempts (some { rc with retryableStatusCodes := some sc, retryableErrors := some re }) =
      request attempts (some { rc with retryableStatusCodes := sc', retryableErrors := re' }) ∧
    (∀ (status : Option Nat) (statusText dataMessage : Option String) (errMessage : String)
        (code : Option String),
      (handleError (AttemptResult.axiosFailure (T := T) status statusText dataMessage
          errMessage code)).isRetryable = true ↔
        (∃ s, status = some s ∧ s ∈ [408, 429, 500, 502, 503, 504]) ∨
        (∃ c, code = some c ∧ c ∈ ["ECONNRESET", "ETIMEDOUT", "ENOTFOUND", "ECONNREFUSED"])) := by
  have hs0 : ∀ s : Nat,
      (s = 408 ∨ s = 429 ∨ s = 500 ∨ s = 502 ∨ s = 503 ∨ s = 504) → ¬s = 0 := by
    rintro s (rfl | rfl | rfl | rfl | rfl | rfl) <;> decide
  have hc0 : ∀ c : String,
      (c = "ECONNRESET" ∨ c = "ETIMEDOUT" ∨ c = "ENOTFOUND" ∨ c = "ECONNREFUSED") →
        ¬c = "" := by
    rintro c (rfl | rfl | rfl | rfl) <;> decide
  refine ⟨rfl, rfl, ?_, ?_⟩
  · exact request_retry_sets_irrelevant attempts _ _ rfl rfl
  · intro status statusText dataMessage errMessage code
    show isRetryableError status code status = true ↔ _
    cases status with
    | none =>
        cases code with
        | none => simp [isRetryableError]
        | some c =>
            simp [isRetryableError, DEFAULT_RETRY_CONFIG, List.elem_iff, bne_iff_ne]
            intro h
            exact hc0 c h
    | some s =>
        cases code with
        | none =>
            simp [isRetryableError, DEFAULT_RETRY_CONFIG, List.elem_iff, bne_iff_ne]
            intro h
            exact hs0 s h
        | some c =>
            simp [isRetryableError, DEFAULT_RETRY_CONFIG, List.elem_iff, bne_iff_ne]
            constructor
            · rintro (⟨h0, hm⟩ | ⟨h0, hm⟩)
              · exact Or.inl hm
              · exact Or.inr hm
            · rintro (hm | hm)
              · exact Or.inl ⟨hs0 s hm, hm⟩
              · exact Or.inr ⟨hc0 c hm, hm⟩

/-- C10 witness: a custom config whitelisting only status 999 and code "XYZ" is
accepted by the merge yet a 503 response behaves exactly as under the default
sets. -/
theorem retryability_ignores_custom_sets_witness :
    (mergeRetryConfig
        (some { enabled := some true, retryableStatusCodes := some [999], retryableErrors := some ["XYZ"] })).retryableStatusCodes = [999] ∧
    request (T := Unit)
      (fun _ => AttemptResult.axiosFailure (some 503) none none "boom" none)
      (some { enabled := some true, retryableStatusCodes := some [999], retryableErrors := some ["XYZ"] }) =
      request (T := Unit)
        (fun _ => AttemptResult.axiosFailure (some 503) none none "boom" none)
        (some { enabled := some true, retryableStatusCodes := none, retryableErrors := none }) :=
  ⟨(retryability_ignores_custom_sets (T := Unit)
      (fun _ => AttemptResult.axiosFailure (some 503) none none "boom" none)
      { enabled := some true } [999] ["XYZ"] none none).1,
   (retryability_ignores_custom_sets (T := Unit)
      (fun _ => AttemptResult.axiosFailure (some 503) none none "boom" none)
      { enabled := some true } [999] ["XYZ"] none none).2.2.1⟩
